import Mathlib

/-
Verification of the differentiable contact constraint engine
(dart/neural/DifferentiableContactConstraint.cpp) and the Dantzig boxed
LCP wrapper (dart/constraint/DantzigBoxedLcpSolver.cpp).

Real scalars are modelled as rationals, so every definition is executable
and equality is decidable.  Kinematic quantities that the source obtains
from the articulated-body oracle (ancestor tests, world screw axes) and
math helpers whose bodies are outside the translated sources (tangent
basis of the ODE friction model, skew-line intersection derivative) are
abstract fields of the environment structure, so every theorem holds for
all of their implementations.
-/

namespace DiffDart

/-- A 3-vector with rational coordinates, standing in for Eigen::Vector3d. -/
structure Vec3 where
  x : ℚ
  y : ℚ
  z : ℚ
deriving DecidableEq, Repr

/-- The zero 3-vector. -/
def Vec3.zero : Vec3 := ⟨0, 0, 0⟩

/-- Componentwise addition of 3-vectors. -/
def Vec3.add (a b : Vec3) : Vec3 := ⟨a.x + b.x, a.y + b.y, a.z + b.z⟩

/-- The cross product of two 3-vectors. -/
def Vec3.cross (a b : Vec3) : Vec3 :=
  ⟨a.y * b.z - a.z * b.y, a.z * b.x - a.x * b.z, a.x * b.y - a.y * b.x⟩

/-- The dot product of two 3-vectors. -/
def Vec3.dot (a b : Vec3) : ℚ := a.x * b.x + a.y * b.y + a.z * b.z

/-- Eigen squaredNorm of a 3-vector. -/
def Vec3.squaredNorm (a : Vec3) : ℚ := Vec3.dot a a

/-- A 6-vector split as Eigen's head<3> and tail<3> blocks, standing in for
Eigen::Vector6d.  For a screw/twist, head is the angular part and tail the
linear part; for a world force, head is the moment and tail the force. -/
structure Vec6 where
  head : Vec3
  tail : Vec3
deriving DecidableEq, Repr

/-- The zero 6-vector. -/
def Vec6.zero : Vec6 := ⟨Vec3.zero, Vec3.zero⟩

/-- The dot product of two 6-vectors. -/
def Vec6.dot (a b : Vec6) : ℚ := Vec3.dot a.head b.head + Vec3.dot a.tail b.tail

/-- collision::ContactType: geometric classification of a contact record. -/
inductive ContactType where
  | VERTEX_FACE
  | FACE_VERTEX
  | EDGE_EDGE
  | UNSUPPORTED
deriving DecidableEq, Repr

/-- DofContactType: classification of how a DOF relates to a contact
(dart/neural/DifferentiableContactConstraint.hpp). -/
inductive DofContactType where
  | NONE
  | VERTEX
  | FACE
  | EDGE_A
  | EDGE_B
  | VERTEX_FACE_SELF_COLLISION
  | EDGE_EDGE_SELF_COLLISION
  | UNSUPPORTED
deriving DecidableEq, Repr

/-- collision::Contact: the immutable contact record captured at collision
detection time (fields as enumerated in the spec's data model). -/
structure Contact where
  point : Vec3
  normal : Vec3
  type : ContactType
  edgeAFixedPoint : Vec3
  edgeADir : Vec3
  edgeBFixedPoint : Vec3
  edgeBDir : Vec3
deriving DecidableEq, Repr

/-- Modelled from the spec: math::gradientWrtTheta(screw, point, 0.0) is "the
instantaneous linear velocity of the world point under unit rate" of the DOF,
i.e. the velocity omega.cross(p) + v of point p under the twist [omega; v].
(The body of math::gradientWrtTheta is outside the translated sources.) -/
def gradientWrtTheta (twist : Vec6) (p : Vec3) : Vec3 :=
  Vec3.add (Vec3.cross twist.head p) twist.tail

/-- Modelled from the spec: math::gradientWrtThetaPureRotation(omega, v, 0.0)
is the pure-rotation gradient of a direction vector, the cross product
omega.cross(v) (spec 4.C writes it as "rot x edgeADir"; scenario S2 evaluates
it literally as a cross product).  (The body of the function is outside the
translated sources.) -/
def gradientWrtThetaPureRotation (omega v : Vec3) : Vec3 := Vec3.cross omega v

/-- Modelled from the spec: math::ad, "the Lie bracket / little-ad" on se(3):
ad([w1;v1],[w2;v2]) = [w1 x w2; w1 x v2 + v1 x w2].  (The body of math::ad
is outside the translated sources.) -/
def ad (a b : Vec6) : Vec6 :=
  ⟨Vec3.cross a.head b.head,
   Vec3.add (Vec3.cross a.head b.tail) (Vec3.cross a.tail b.head)⟩

/-- The state of one DifferentiableContactConstraint together with the
kinematic oracles the source consults.

mConstraint / mContactConstraint / mContact are represented by the flag
isContactConstraint plus the value-copied contact record; mIndex by index;
mSkeletons by skeletons.  isParentA d and isParentB d are
isParent(d, getBodyNodeA()) and isParent(d, getBodyNodeB()); isParentDof is
the DOF-to-DOF overload of isParent.  worldScrewAxis d is
getWorldScrewAxis(d) = AdT(childBody worldTransform, relativeJacobian column),
the very expression the gradient methods also inline.  tangentBasisMatrixODE
n k is column k of ContactConstraint::getTangentBasisMatrixODE(n), and
tangentBasisMatrixODEGradient n g k is column k of
getTangentBasisMatrixODEGradient(n, g).  contactPointGradient is
math::getContactPointGradient (derivative of the closed-form skew-line
intersection), whose body is outside the translated sources, so it stays
abstract. -/
structure DCC (Dof : Type) where
  isContactConstraint : Bool
  contact : Contact
  index : Nat
  skeletons : List String
  isParentA : Dof → Bool
  isParentB : Dof → Bool
  isParentDof : Dof → Dof → Bool
  worldScrewAxis : Dof → Vec6
  tangentBasisMatrixODE : Vec3 → Nat → Vec3
  tangentBasisMatrixODEGradient : Vec3 → Vec3 → Nat → Vec3
  contactPointGradient :
    Vec3 → Vec3 → Vec3 → Vec3 → Vec3 → Vec3 → Vec3 → Vec3 → Vec3

/-- A skeleton, as the constraint methods see it: a name and its DOF list. -/
structure Skeleton (Dof : Type) where
  name : String
  dofs : List Dof

variable {Dof : Type}

/-- DifferentiableContactConstraint::getContactWorldPosition. -/
def getContactWorldPosition (c : DCC Dof) : Vec3 :=
  if c.isContactConstraint then c.contact.point else Vec3.zero

/-- DifferentiableContactConstraint::getContactWorldNormal. -/
def getContactWorldNormal (c : DCC Dof) : Vec3 :=
  if c.isContactConstraint then c.contact.normal else Vec3.zero

/-- DifferentiableContactConstraint::getContactWorldForceDirection. -/
def getContactWorldForceDirection (c : DCC Dof) : Vec3 :=
  if c.isContactConstraint then
    if c.index = 0 then c.contact.normal
    else c.tangentBasisMatrixODE c.contact.normal (c.index - 1)
  else Vec3.zero

/-- DifferentiableContactConstraint::getWorldForce:
head = point x direction, tail = direction. -/
def getWorldForce (c : DCC Dof) : Vec6 :=
  ⟨Vec3.cross (getContactWorldPosition c) (getContactWorldForceDirection c),
   getContactWorldForceDirection c⟩

/-- DifferentiableContactConstraint::getContactType: UNSUPPORTED for a
non-contact constraint, else the contact record's type. -/
def getContactType (c : DCC Dof) : ContactType :=
  if c.isContactConstraint then c.contact.type else ContactType.UNSUPPORTED

/-- DifferentiableContactConstraint::getDofContactType, translated branch by
branch from the source's if/else chain and switches. -/
def getDofContactType (c : DCC Dof) (d : Dof) : DofContactType :=
  let isParentA := c.isParentA d
  let isParentB := c.isParentB d
  if isParentA && isParentB then
    match getContactType c with
    | ContactType.FACE_VERTEX => DofContactType.VERTEX_FACE_SELF_COLLISION
    | ContactType.VERTEX_FACE => DofContactType.VERTEX_FACE_SELF_COLLISION
    | ContactType.EDGE_EDGE => DofContactType.EDGE_EDGE_SELF_COLLISION
    | _ => DofContactType.UNSUPPORTED
  else if !isParentA && !isParentB then
    DofContactType.NONE
  else if isParentA then
    match getContactType c with
    | ContactType.FACE_VERTEX => DofContactType.FACE
    | ContactType.VERTEX_FACE => DofContactType.VERTEX
    | ContactType.EDGE_EDGE => DofContactType.EDGE_B
    | _ => DofContactType.UNSUPPORTED
  else if isParentB then
    match getContactType c with
    | ContactType.FACE_VERTEX => DofContactType.VERTEX
    | ContactType.VERTEX_FACE => DofContactType.FACE
    | ContactType.EDGE_EDGE => DofContactType.EDGE_A
    | _ => DofContactType.UNSUPPORTED
  else
    DofContactType.NONE

/-- DifferentiableContactConstraint::getForceMultiple: 1.0 for a non-contact
constraint; else 0.0 when parent of both, 1.0 when parent of A only, -1.0
when parent of B only, 0.0 otherwise. -/
def getForceMultiple (c : DCC Dof) (d : Dof) : ℚ :=
  if !c.isContactConstraint then 1
  else
    let isParentA := c.isParentA d
    let isParentB := c.isParentB d
    if isParentA && isParentB then 0
    else if isParentA then 1
    else if isParentB then -1
    else 0

/-- DifferentiableContactConstraint::getConstraintForces(skel): all zeros when
the skeleton is not among the constraint's skeletons; otherwise per DOF,
0 when the force multiple is 0, else worldScrewAxis.dot(worldForce)*multiple. -/
def getConstraintForces (c : DCC Dof) (skel : Skeleton Dof) : List ℚ :=
  if skel.name ∈ c.skeletons then
    skel.dofs.map (fun d =>
      let multiple := getForceMultiple c d
      if multiple = 0 then 0
      else Vec6.dot (c.worldScrewAxis d) (getWorldForce c) * multiple)
  else
    List.replicate skel.dofs.length 0

/-- DifferentiableContactConstraint::getContactPositionGradient, translated
case by case from the source (the source's inline
AdT(worldTransform, relativeJacobian column) is worldScrewAxis d). -/
def getContactPositionGradient (c : DCC Dof) (d : Dof) : Vec3 :=
  let contactPos := getContactWorldPosition c
  match getDofContactType c d with
  | DofContactType.FACE => Vec3.zero
  | DofContactType.VERTEX =>
      gradientWrtTheta (c.worldScrewAxis d) contactPos
  | DofContactType.VERTEX_FACE_SELF_COLLISION =>
      gradientWrtTheta (c.worldScrewAxis d) contactPos
  | DofContactType.EDGE_EDGE_SELF_COLLISION =>
      gradientWrtTheta (c.worldScrewAxis d) contactPos
  | DofContactType.EDGE_A =>
      let worldTwist := c.worldScrewAxis d
      let edgeAPosGradient := gradientWrtTheta worldTwist c.contact.edgeAFixedPoint
      let edgeADirGradient :=
        gradientWrtThetaPureRotation worldTwist.head c.contact.edgeADir
      c.contactPointGradient
        c.contact.edgeAFixedPoint edgeAPosGradient
        c.contact.edgeADir edgeADirGradient
        c.contact.edgeBFixedPoint Vec3.zero
        c.contact.edgeBDir Vec3.zero
  | DofContactType.EDGE_B =>
      let worldTwist := c.worldScrewAxis d
      let edgeBPosGradient := gradientWrtTheta worldTwist c.contact.edgeBFixedPoint
      let edgeBDirGradient :=
        gradientWrtThetaPureRotation worldTwist.head c.contact.edgeBDir
      c.contactPointGradient
        c.contact.edgeAFixedPoint Vec3.zero
        c.contact.edgeADir Vec3.zero
        c.contact.edgeBFixedPoint edgeBPosGradient
        c.contact.edgeBDir edgeBDirGradient
  | _ => Vec3.zero

/-- DifferentiableContactConstraint::getContactNormalGradient, translated case
by case from the source. -/
def getContactNormalGradient (c : DCC Dof) (d : Dof) : Vec3 :=
  let normal := getContactWorldNormal c
  match getDofContactType c d with
  | DofContactType.VERTEX => Vec3.zero
  | DofContactType.FACE =>
      gradientWrtThetaPureRotation (c.worldScrewAxis d).head normal
  | DofContactType.VERTEX_FACE_SELF_COLLISION =>
      gradientWrtThetaPureRotation (c.worldScrewAxis d).head normal
  | DofContactType.EDGE_EDGE_SELF_COLLISION =>
      gradientWrtThetaPureRotation (c.worldScrewAxis d).head normal
  | DofContactType.EDGE_A =>
      Vec3.cross
        (gradientWrtThetaPureRotation (c.worldScrewAxis d).head c.contact.edgeADir)
        c.contact.edgeBDir
  | DofContactType.EDGE_B =>
      Vec3.cross c.contact.edgeADir
        (gradientWrtThetaPureRotation (c.worldScrewAxis d).head c.contact.edgeBDir)
  | _ => Vec3.zero

/-- DifferentiableContactConstraint::getContactForceGradient.  In the source,
for the non-VERTEX related types: return the normal gradient when mIndex == 0
or its squaredNorm is <= 1e-12, else column mIndex-1 of
getTangentBasisMatrixODEGradient(normal, normalGradient). -/
def getContactForceGradient (c : DCC Dof) (d : Dof) : Vec3 :=
  match getDofContactType c d with
  | DofContactType.VERTEX => Vec3.zero
  | DofContactType.NONE => Vec3.zero
  | DofContactType.UNSUPPORTED => Vec3.zero
  | _ =>
      let contactNormal := getContactWorldNormal c
      let normalGradient := getContactNormalGradient c d
      if c.index = 0 ∨ Vec3.squaredNorm normalGradient ≤ 1 / 10 ^ 12 then
        normalGradient
      else
        c.tangentBasisMatrixODEGradient contactNormal normalGradient (c.index - 1)

/-- DifferentiableContactConstraint::getContactWorldForceGradient: product rule
on [position x direction; direction]. -/
def getContactWorldForceGradient (c : DCC Dof) (d : Dof) : Vec6 :=
  let position := getContactWorldPosition c
  let force := getContactWorldForceDirection c
  let forceGradient := getContactForceGradient c d
  let positionGradient := getContactPositionGradient c d
  ⟨Vec3.add (Vec3.cross position forceGradient) (Vec3.cross positionGradient force),
   forceGradient⟩

/-- DifferentiableContactConstraint::getScrewAxisGradient(screwDof, rotateDof):
zero when rotateDof is not a parent of screwDof, else
ad(rotate world twist, axis world twist). -/
def getScrewAxisGradient (c : DCC Dof) (screwDof rotateDof : Dof) : Vec6 :=
  if c.isParentDof rotateDof screwDof then
    ad (c.worldScrewAxis rotateDof) (c.worldScrewAxis screwDof)
  else Vec6.zero

/-- DifferentiableContactConstraint::getConstraintForceDerivative(dof, wrt):
(worldTwist.dot(gradientOfWorldForce) + gradientOfWorldTwist.dot(worldForce))
times the force multiple. -/
def getConstraintForceDerivative (c : DCC Dof) (dof wrt : Dof) : ℚ :=
  let multiple := getForceMultiple c dof
  let worldForce := getWorldForce c
  let gradientOfWorldForce := getContactWorldForceGradient c wrt
  let gradientOfWorldTwist := getScrewAxisGradient c dof wrt
  let worldTwist := c.worldScrewAxis dof
  (Vec6.dot worldTwist gradientOfWorldForce
      + Vec6.dot gradientOfWorldTwist worldForce)
    * multiple

/-- DantzigBoxedLcpSolver::solve wraps the external dSolveLCP call in
try/catch: the argument is the outcome of that call (Except.error when it
throws, Except.ok of its boolean result otherwise), and the wrapper always
returns a plain Bool, never propagating the exception. -/
def dantzigBoxedLcpSolve (callResult : Except Unit Bool) : Bool :=
  match callResult with
  | Except.ok b => b
  | Except.error _ => false

/-- The spec's classification truth table (section 4.B), written from the
spec's words for comparison with getDofContactType as translated from the
source: the first column is ancestor(A), the second ancestor(B). -/
def specDofContactType (ancestorA ancestorB : Bool) (t : ContactType) :
    DofContactType :=
  if !ancestorA && !ancestorB then DofContactType.NONE
  else if ancestorA && ancestorB then
    match t with
    | ContactType.VERTEX_FACE => DofContactType.VERTEX_FACE_SELF_COLLISION
    | ContactType.FACE_VERTEX => DofContactType.VERTEX_FACE_SELF_COLLISION
    | ContactType.EDGE_EDGE => DofContactType.EDGE_EDGE_SELF_COLLISION
    | ContactType.UNSUPPORTED => DofContactType.UNSUPPORTED
  else if ancestorA then
    match t with
    | ContactType.VERTEX_FACE => DofContactType.VERTEX
    | ContactType.FACE_VERTEX => DofContactType.FACE
    | ContactType.EDGE_EDGE => DofContactType.EDGE_B
    | ContactType.UNSUPPORTED => DofContactType.UNSUPPORTED
  else
    match t with
    | ContactType.VERTEX_FACE => DofContactType.FACE
    | ContactType.FACE_VERTEX => DofContactType.VERTEX
    | ContactType.EDGE_EDGE => DofContactType.EDGE_A
    | ContactType.UNSUPPORTED => DofContactType.UNSUPPORTED

/-! ### Concrete example environments, used by witnesses and counterexamples -/

/-- A concrete vertex-face contact record. -/
def exContact : Contact :=
  { point := ⟨1, 2, 3⟩
    normal := ⟨0, 0, 1⟩
    type := ContactType.VERTEX_FACE
    edgeAFixedPoint := ⟨1, 0, 0⟩
    edgeADir := ⟨0, 1, 0⟩
    edgeBFixedPoint := ⟨0, 1, 0⟩
    edgeBDir := ⟨1, 0, 0⟩ }

/-- A concrete constraint environment: a vertex-face contact whose single DOF
is a parent of body A only. -/
def exDCC : DCC Unit :=
  { isContactConstraint := true
    contact := exContact
    index := 0
    skeletons := ["skelA"]
    isParentA := fun _ => true
    isParentB := fun _ => false
    isParentDof := fun _ _ => true
    worldScrewAxis := fun _ => ⟨⟨0, 0, 1⟩, ⟨0, 1, 0⟩⟩
    tangentBasisMatrixODE := fun _ _ => ⟨1, 0, 0⟩
    tangentBasisMatrixODEGradient := fun _ _ _ => ⟨5, 5, 5⟩
    contactPointGradient := fun _ _ _ _ _ _ _ _ => ⟨7, 7, 7⟩ }

/-- Variant of exDCC: an UNSUPPORTED contact, DOF a parent of neither body. -/
def exDCCUnsupNeither : DCC Unit :=
  { exDCC with
    contact := { exContact with type := ContactType.UNSUPPORTED }
    isParentA := fun _ => false
    isParentB := fun _ => false }

/-- Variant of exDCC: an UNSUPPORTED contact, DOF a parent of A only. -/
def exDCCUnsupA : DCC Unit :=
  { exDCC with contact := { exContact with type := ContactType.UNSUPPORTED } }

/-! ### C1 -/

/-- C1: for every DOF and every contact of geometric type VERTEX_FACE,
FACE_VERTEX or EDGE_EDGE, getDofContactType returns exactly the
classification of the spec's truth table: NONE when the DOF is an ancestor
of neither body; the matching self-collision type when it is an ancestor of
both; VERTEX / FACE / EDGE_B for VF / FV / EE when it is an ancestor of A
only; and FACE / VERTEX / EDGE_A when it is an ancestor of B only. -/
theorem C1_getDofContactType_truth_table (c : DCC Dof) (d : Dof)
    (hc : c.isContactConstraint = true)
    (ht : c.contact.type = ContactType.VERTEX_FACE
      ∨ c.contact.type = ContactType.FACE_VERTEX
      ∨ c.contact.type = ContactType.EDGE_EDGE) :
    getDofContactType c d
      = specDofContactType (c.isParentA d) (c.isParentB d) c.contact.type := by
  rcases ht with h | h | h <;>
    cases hA : c.isParentA d <;> cases hB : c.isParentB d <;>
      simp [getDofContactType, specDofContactType, getContactType, hc, h, hA, hB]

/-- C1 witness: on the concrete vertex-face example where the DOF is an
ancestor of A only, the classifier agrees with the spec's table (and the
common value is VERTEX). -/
theorem C1_witness :
    getDofContactType exDCC ()
        = specDofContactType (exDCC.isParentA ()) (exDCC.isParentB ())
            exDCC.contact.type
      ∧ getDofContactType exDCC () = DofContactType.VERTEX :=
  ⟨C1_getDofContactType_truth_table exDCC () rfl (Or.inl rfl), rfl⟩

/-! ### C7 -/

/-- C7: for a contact constraint, getForceMultiple is nonzero exactly when
the DOF is an ancestor of A XOR an ancestor of B; it is 1 when ancestor of A
only, -1 when ancestor of B only, and 0 when ancestor of both or neither. -/
theorem C7_getForceMultiple_xor (c : DCC Dof) (d : Dof)
    (hc : c.isContactConstraint = true) :
    (getForceMultiple c d ≠ 0 ↔ c.isParentA d ≠ c.isParentB d)
      ∧ (c.isParentA d = true → c.isParentB d = false →
          getForceMultiple c d = 1)
      ∧ (c.isParentA d = false → c.isParentB d = true →
          getForceMultiple c d = -1)
      ∧ (c.isParentA d = c.isParentB d → getForceMultiple c d = 0) := by
  cases hA : c.isParentA d <;> cases hB : c.isParentB d <;>
    simp [getForceMultiple, hc, hA, hB]

/-- C7 witness: on the concrete example, the DOF is an ancestor of A only and
the force multiple is 1. -/
theorem C7_witness : getForceMultiple exDCC () = 1 :=
  (C7_getForceMultiple_xor exDCC () rfl).2.1 rfl rfl

/-! ### C8 -/

/-- C8 counterexample: on a contact of geometric type UNSUPPORTED whose DOF is
an ancestor of neither body, getDofContactType returns NONE, not UNSUPPORTED
as the claim states: the ancestor-of-neither branch is checked before the
contact-type switch. -/
theorem C8_counterexample :
    exDCCUnsupNeither.contact.type = ContactType.UNSUPPORTED
      ∧ exDCCUnsupNeither.isParentA () = false
      ∧ exDCCUnsupNeither.isParentB () = false
      ∧ getDofContactType exDCCUnsupNeither () = DofContactType.NONE
      ∧ getDofContactType exDCCUnsupNeither () ≠ DofContactType.UNSUPPORTED :=
  ⟨rfl, rfl, rfl, rfl, by simp [getDofContactType, getContactType, exDCCUnsupNeither, exDCC]⟩

/-- C8 amended: for a contact of geometric type UNSUPPORTED, getDofContactType
returns UNSUPPORTED when the DOF is an ancestor of A, of B, or of both, and
returns NONE when it is an ancestor of neither. -/
theorem C8_getDofContactType_unsupported (c : DCC Dof) (d : Dof)
    (hc : c.isContactConstraint = true)
    (ht : c.contact.type = ContactType.UNSUPPORTED) :
    ((c.isParentA d || c.isParentB d) = true →
        getDofContactType c d = DofContactType.UNSUPPORTED)
      ∧ (c.isParentA d = false → c.isParentB d = false →
          getDofContactType c d = DofContactType.NONE) := by
  cases hA : c.isParentA d <;> cases hB : c.isParentB d <;>
    simp [getDofContactType, getContactType, hc, ht, hA, hB]

/-- C8 witness: on an UNSUPPORTED contact whose DOF is an ancestor of A only,
the classifier returns UNSUPPORTED. -/
theorem C8_witness :
    getDofContactType exDCCUnsupA () = DofContactType.UNSUPPORTED :=
  (C8_getDofContactType_unsupported exDCCUnsupA () rfl rfl).1 rfl

/-! ### C2 -/

/-- C2: the contact position gradient is zero for DOF-contact types FACE,
NONE and UNSUPPORTED; equals gradientWrtTheta(worldScrewAxis(d), contact
point) for VERTEX and the two self-collision types; and for EDGE_A
(symmetrically EDGE_B) equals getContactPointGradient applied to the
fixed-point and direction gradients of the moving edge with zero gradients
for the other edge. -/
theorem C2_getContactPositionGradient_cases (c : DCC Dof) (d : Dof) :
    ((getDofContactType c d = DofContactType.FACE
        ∨ getDofContactType c d = DofContactType.NONE
        ∨ getDofContactType c d = DofContactType.UNSUPPORTED) →
      getContactPositionGradient c d = Vec3.zero)
    ∧ ((getDofContactType c d = DofContactType.VERTEX
        ∨ getDofContactType c d = DofContactType.VERTEX_FACE_SELF_COLLISION
        ∨ getDofContactType c d = DofContactType.EDGE_EDGE_SELF_COLLISION) →
      getContactPositionGradient c d
        = gradientWrtTheta (c.worldScrewAxis d) (getContactWorldPosition c))
    ∧ (getDofContactType c d = DofContactType.EDGE_A →
      getContactPositionGradient c d
        = c.contactPointGradient
            c.contact.edgeAFixedPoint
            (gradientWrtTheta (c.worldScrewAxis d) c.contact.edgeAFixedPoint)
            c.contact.edgeADir
            (gradientWrtThetaPureRotation (c.worldScrewAxis d).head
              c.contact.edgeADir)
            c.contact.edgeBFixedPoint Vec3.zero
            c.contact.edgeBDir Vec3.zero)
    ∧ (getDofContactType c d = DofContactType.EDGE_B →
      getContactPositionGradient c d
        = c.contactPointGradient
            c.contact.edgeAFixedPoint Vec3.zero
            c.contact.edgeADir Vec3.zero
            c.contact.edgeBFixedPoint
            (gradientWrtTheta (c.worldScrewAxis d) c.contact.edgeBFixedPoint)
            c.contact.edgeBDir
            (gradientWrtThetaPureRotation (c.worldScrewAxis d).head
              c.contact.edgeBDir)) := by
  refine ⟨?_, ?_, ?_, ?_⟩ <;> intro h
  · rcases h with h | h | h <;> simp [getContactPositionGradient, h]
  · rcases h with h | h | h <;> simp [getContactPositionGradient, h]
  · simp [getContactPositionGradient, h]
  · simp [getContactPositionGradient, h]

/-- C2 witness: on the concrete vertex-face example (DOF-contact type VERTEX)
the position gradient is the instantaneous velocity of the contact point. -/
theorem C2_witness :
    getContactPositionGradient exDCC ()
      = gradientWrtTheta (exDCC.worldScrewAxis ()) (getContactWorldPosition exDCC) :=
  (C2_getContactPositionGradient_cases exDCC ()).2.1 (Or.inl rfl)

/-! ### C3 -/

/-- C3: the contact normal gradient is zero for DOF-contact types VERTEX,
NONE and UNSUPPORTED; equals the pure-rotation gradient of the normal under
the angular part of the DOF's world screw axis for FACE and the two
self-collision types; and for EDGE_A equals (rot x edgeADir) x edgeBDir,
symmetrically edgeADir x (rot x edgeBDir) for EDGE_B, where rot x u is the
pure-rotation gradient of the edge direction. -/
theorem C3_getContactNormalGradient_cases (c : DCC Dof) (d : Dof) :
    ((getDofContactType c d = DofContactType.VERTEX
        ∨ getDofContactType c d = DofContactType.NONE
        ∨ getDofContactType c d = DofContactType.UNSUPPORTED) →
      getContactNormalGradient c d = Vec3.zero)
    ∧ ((getDofContactType c d = DofContactType.FACE
        ∨ getDofContactType c d = DofContactType.VERTEX_FACE_SELF_COLLISION
        ∨ getDofContactType c d = DofContactType.EDGE_EDGE_SELF_COLLISION) →
      getContactNormalGradient c d
        = gradientWrtThetaPureRotation (c.worldScrewAxis d).head
            (getContactWorldNormal c))
    ∧ (getDofContactType c d = DofContactType.EDGE_A →
      getContactNormalGradient c d
        = Vec3.cross
            (gradientWrtThetaPureRotation (c.worldScrewAxis d).head
              c.contact.edgeADir)
            c.contact.edgeBDir)
    ∧ (getDofContactType c d = DofContactType.EDGE_B →
      getContactNormalGradient c d
        = Vec3.cross c.contact.edgeADir
            (gradientWrtThetaPureRotation (c.worldScrewAxis d).head
              c.contact.edgeBDir)) := by
  refine ⟨?_, ?_, ?_, ?_⟩ <;> intro h
  · rcases h with h | h | h <;> simp [getContactNormalGradient, h]
  · rcases h with h | h | h <;> simp [getContactNormalGradient, h]
  · simp [getContactNormalGradient, h]
  · simp [getContactNormalGradient, h]

/-- Variant of exDCC: a face-vertex contact, so the DOF (an ancestor of A
only) has DOF-contact type FACE. -/
def exDCCFV : DCC Unit :=
  { exDCC with contact := { exContact with type := ContactType.FACE_VERTEX } }

/-- C3 witness: on the concrete face-vertex example (DOF-contact type FACE)
the normal gradient is the pure-rotation gradient of the normal. -/
theorem C3_witness :
    getContactNormalGradient exDCCFV ()
      = gradientWrtThetaPureRotation ((exDCCFV.worldScrewAxis ()).head)
          (getContactWorldNormal exDCCFV) :=
  (C3_getContactNormalGradient_cases exDCCFV ()).2.1 (Or.inl rfl)

/-! ### C4 -/

/-- Variant of exDCC: face-vertex contact, tangent row (index 1), and a screw
axis whose angular part is (1e-7, 0, 0), so the normal gradient is
(0, -1e-7, 0) with squared norm 1e-14, strictly below the 1e-12 cutoff. -/
def exDCCTiny : DCC Unit :=
  { exDCC with
    contact := { exContact with type := ContactType.FACE_VERTEX }
    index := 1
    worldScrewAxis := fun _ => ⟨⟨1 / 10 ^ 7, 0, 0⟩, Vec3.zero⟩ }

/-- Variant of exDCC: face-vertex contact, tangent row (index 1), and a screw
axis whose angular part is (1e-6, 0, 0), so the normal gradient is
(0, -1e-6, 0) with squared norm exactly 1e-12, on the cutoff boundary. -/
def exDCCBoundary : DCC Unit :=
  { exDCC with
    contact := { exContact with type := ContactType.FACE_VERTEX }
    index := 1
    worldScrewAxis := fun _ => ⟨⟨1 / 10 ^ 6, 0, 0⟩, Vec3.zero⟩ }

/-- C4 counterexample, in two parts.  First: on exDCCTiny the squared norm of
the normal gradient is below 1e-12 and the basis index is 1, yet the force
gradient is not zero (the source returns the normal gradient itself, which is
tiny but nonzero, rather than short-circuiting to zero).  Second: on
exDCCBoundary the squared norm is not below 1e-12, so the claim's remaining
branch says the force gradient is column index-1 of the tangent-basis
gradient, yet the source (whose test is <=, not <) still returns the normal
gradient, which differs from that column. -/
theorem C4_counterexample :
    (getDofContactType exDCCTiny () = DofContactType.FACE
        ∧ exDCCTiny.index = 1
        ∧ Vec3.squaredNorm (getContactNormalGradient exDCCTiny ()) < 1 / 10 ^ 12
        ∧ getContactForceGradient exDCCTiny () ≠ Vec3.zero)
      ∧ (getDofContactType exDCCBoundary () = DofContactType.FACE
        ∧ exDCCBoundary.index = 1
        ∧ ¬ Vec3.squaredNorm (getContactNormalGradient exDCCBoundary ())
              < 1 / 10 ^ 12
        ∧ getContactForceGradient exDCCBoundary ()
            ≠ exDCCBoundary.tangentBasisMatrixODEGradient
                (getContactWorldNormal exDCCBoundary)
                (getContactNormalGradient exDCCBoundary ())
                (exDCCBoundary.index - 1)) := by
  refine ⟨⟨rfl, rfl, ?_, ?_⟩, ⟨rfl, rfl, ?_, ?_⟩⟩ <;>
    norm_num [getContactNormalGradient, getContactForceGradient,
      getDofContactType, getContactType, getContactWorldNormal,
      gradientWrtThetaPureRotation, Vec3.cross, Vec3.dot, Vec3.squaredNorm,
      Vec3.zero, Vec3.mk.injEq, exDCCTiny, exDCCBoundary, exDCC, exContact]

/-- C4 amended: for every DOF whose DOF-contact type is not VERTEX, NONE or
UNSUPPORTED, the force-direction gradient equals the normal gradient when the
basis index is 0 or the squared norm of the normal gradient is at most 1e-12
(the short-circuit returns the normal gradient itself, not zero, and fires at
the boundary too); otherwise it equals column index-1 of
getTangentBasisMatrixODEGradient(normal, normal gradient). -/
theorem C4_getContactForceGradient_amended (c : DCC Dof) (d : Dof)
    (h1 : getDofContactType c d ≠ DofContactType.VERTEX)
    (h2 : getDofContactType c d ≠ DofContactType.NONE)
    (h3 : getDofContactType c d ≠ DofContactType.UNSUPPORTED) :
    ((c.index = 0
        ∨ Vec3.squaredNorm (getContactNormalGradient c d) ≤ 1 / 10 ^ 12) →
        getContactForceGradient c d = getContactNormalGradient c d)
      ∧ (c.index ≠ 0 →
          ¬ Vec3.squaredNorm (getContactNormalGradient c d) ≤ 1 / 10 ^ 12 →
          getContactForceGradient c d
            = c.tangentBasisMatrixODEGradient (getContactWorldNormal c)
                (getContactNormalGradient c d) (c.index - 1)) := by
  have key : getContactForceGradient c d
      = if c.index = 0
            ∨ Vec3.squaredNorm (getContactNormalGradient c d) ≤ 1 / 10 ^ 12
        then getContactNormalGradient c d
        else c.tangentBasisMatrixODEGradient (getContactWorldNormal c)
            (getContactNormalGradient c d) (c.index - 1) := by
    cases hT : getDofContactType c d
    case VERTEX => exact absurd hT h1
    case NONE => exact absurd hT h2
    case UNSUPPORTED => exact absurd hT h3
    all_goals simp [getContactForceGradient, getContactNormalGradient, hT]
  refine ⟨fun h => ?_, fun hi hs => ?_⟩
  · rw [key, if_pos h]
  · rw [key, if_neg (by tauto)]

/-- C4 witness: on the concrete face-vertex example with basis index 0, the
force gradient equals the normal gradient. -/
theorem C4_witness :
    getContactForceGradient exDCCFV () = getContactNormalGradient exDCCFV () :=
  (C4_getContactForceGradient_amended exDCCFV ()
      (by decide) (by decide) (by decide)).1 (Or.inl rfl)

/-! ### C5 -/

/-- Dotting any 3-vector with the zero vector gives 0. -/
theorem vec3DotZero (a : Vec3) : Vec3.dot a Vec3.zero = 0 := by
  simp [Vec3.dot, Vec3.zero]

/-- Dotting any 6-vector with the zero 6-vector gives 0. -/
theorem vec6DotZero (a : Vec6) : Vec6.dot a Vec6.zero = 0 := by
  simp [Vec6.dot, Vec6.zero, vec3DotZero]

/-- C5: getConstraintForces on a skeleton has one entry per DOF; on a touched
skeleton the i-th entry is multiple(d_i) * (worldScrewAxis(d_i) . worldForce);
on an untouched skeleton every entry is exactly zero; and every entry whose
DOF has force multiple 0 is exactly zero. -/
theorem C5_getConstraintForces_entries (c : DCC Dof) (skel : Skeleton Dof) :
    (getConstraintForces c skel).length = skel.dofs.length
    ∧ (skel.name ∈ c.skeletons →
        getConstraintForces c skel
          = skel.dofs.map (fun d =>
              getForceMultiple c d
                * Vec6.dot (c.worldScrewAxis d) (getWorldForce c)))
    ∧ (skel.name ∉ c.skeletons →
        getConstraintForces c skel = List.replicate skel.dofs.length 0)
    ∧ (∀ i : Fin skel.dofs.length,
        getForceMultiple c (skel.dofs.get i) = 0 →
        ∀ h : i.val < (getConstraintForces c skel).length,
          (getConstraintForces c skel).get ⟨i.val, h⟩ = 0) := by
  refine ⟨?_, fun hm => ?_, fun hm => ?_, fun i h0 h => ?_⟩
  · by_cases hm : skel.name ∈ c.skeletons <;> simp [getConstraintForces, hm]
  · simp only [getConstraintForces, if_pos hm]
    refine List.map_congr_left (fun d _ => ?_)
    by_cases h0 : getForceMultiple c d = 0
    · simp [h0]
    · simp [h0, mul_comm]
  · simp [getConstraintForces, hm]
  · by_cases hm : skel.name ∈ c.skeletons
    · simp only [getConstraintForces, if_pos hm, List.get_eq_getElem,
        List.getElem_map] at h ⊢
      simp only [List.get_eq_getElem] at h0
      simp [h0]
    · simp [getConstraintForces, hm]

/-- A concrete one-DOF skeleton named skelA, which exDCC touches. -/
def exSkel : Skeleton Unit := { name := "skelA", dofs := [()] }

/-- C5 witness: on the concrete touched skeleton, the constraint force list is
given entrywise by multiple * (screw axis . world force). -/
theorem C5_witness :
    getConstraintForces exDCC exSkel
      = exSkel.dofs.map (fun d =>
          getForceMultiple exDCC d
            * Vec6.dot (exDCC.worldScrewAxis d) (getWorldForce exDCC)) :=
  (C5_getConstraintForces_entries exDCC exSkel).2.1 (by simp [exSkel, exDCC])

/-! ### C6 -/

/-- C6: getScrewAxisGradient(d_row, d_wrt) is zero when d_wrt is not a parent
of d_row and equals ad(worldScrewAxis(d_wrt), worldScrewAxis(d_row))
otherwise; consequently getConstraintForceDerivative(d_row, d_wrt) equals
multiple(d_row) * (screwAxisGradient . worldForce
+ worldScrewAxis(d_row) . worldForceGradient(d_wrt)). -/
theorem C6_screw_axis_gradient_and_force_derivative
    (c : DCC Dof) (dRow dWrt : Dof) :
    (c.isParentDof dWrt dRow = false →
        getScrewAxisGradient c dRow dWrt = Vec6.zero)
    ∧ (c.isParentDof dWrt dRow = true →
        getScrewAxisGradient c dRow dWrt
          = ad (c.worldScrewAxis dWrt) (c.worldScrewAxis dRow))
    ∧ getConstraintForceDerivative c dRow dWrt
        = getForceMultiple c dRow
            * (Vec6.dot (getScrewAxisGradient c dRow dWrt) (getWorldForce c)
              + Vec6.dot (c.worldScrewAxis dRow)
                  (getContactWorldForceGradient c dWrt)) := by
  refine ⟨fun h => ?_, fun h => ?_, ?_⟩
  · simp [getScrewAxisGradient, h]
  · simp [getScrewAxisGradient, h]
  · simp only [getConstraintForceDerivative]
    ring

/-- C6 witness: on the concrete example, where the wrt DOF is a parent of the
row DOF, the screw-axis gradient is the little-ad of the two world screws. -/
theorem C6_witness :
    getScrewAxisGradient exDCC () ()
      = ad (exDCC.worldScrewAxis ()) (exDCC.worldScrewAxis ()) :=
  (C6_screw_axis_gradient_and_force_derivative exDCC () ()).2.1 rfl

/-! ### C9 -/

/-- C9: the Dantzig boxed LCP wrapper returns dSolveLCP's boolean when the
call returns, and false when the call throws; being a total function into
Bool, it never propagates the exception. -/
theorem C9_dantzigBoxedLcpSolve_total (b : Bool) (e : Unit) :
    dantzigBoxedLcpSolve (Except.ok b) = b
      ∧ dantzigBoxedLcpSolve (Except.error e) = false :=
  ⟨rfl, rfl⟩

/-! ### C10 -/

/-- C10: when the wrapped constraint is not a contact constraint, the contact
world position, normal and force direction are all zero, hence the world
6-force is the zero 6-vector and every constraint-force entry is zero, even
though getForceMultiple returns 1 for every DOF. -/
theorem C10_non_contact_constraint_zero_forces
    (c : DCC Dof) (skel : Skeleton Dof) (d : Dof)
    (hc : c.isContactConstraint = false) :
    getContactWorldPosition c = Vec3.zero
    ∧ getContactWorldNormal c = Vec3.zero
    ∧ getContactWorldForceDirection c = Vec3.zero
    ∧ getWorldForce c = Vec6.zero
    ∧ getForceMultiple c d = 1
    ∧ (∀ x ∈ getConstraintForces c skel, x = 0) := by
  have hp : getContactWorldPosition c = Vec3.zero := by
    simp [getContactWorldPosition, hc]
  have hdir : getContactWorldForceDirection c = Vec3.zero := by
    simp [getContactWorldForceDirection, hc]
  have hw : getWorldForce c = Vec6.zero := by
    simp [getWorldForce, hp, hdir, Vec6.zero, Vec3.cross, Vec3.zero]
  refine ⟨hp, by simp [getContactWorldNormal, hc], hdir, hw, ?_, ?_⟩
  · simp [getForceMultiple, hc]
  · intro x hx
    by_cases hm : skel.name ∈ c.skeletons
    · simp only [getConstraintForces, if_pos hm, List.mem_map] at hx
      obtain ⟨d0, _, hd0⟩ := hx
      rw [← hd0]
      by_cases h0 : getForceMultiple c d0 = 0
      · simp [h0]
      · simp [h0, hw, vec6DotZero]
    · simp only [getConstraintForces, if_neg hm] at hx
      exact List.eq_of_mem_replicate hx

/-- Variant of exDCC representing a non-contact (e.g. joint-limit)
constraint. -/
def exDCCJoint : DCC Unit := { exDCC with isContactConstraint := false }

/-- C10 witness: on the concrete non-contact constraint, the world force is
the zero 6-vector. -/
theorem C10_witness : getWorldForce exDCCJoint = Vec6.zero :=
  (C10_non_contact_constraint_zero_forces exDCCJoint exSkel () rfl).2.2.2.1

end DiffDart
